import Mathlib

/-! Formal model of the flac_player audio playback engine.

The repository has two backend variants of the same engine:
the SDL3 variant (src/sdl/audio_engine.cpp) and the SDL2 variant
(src/sdl/audio_engine_sdl2.cpp).  Both are shallowly embedded below:
samples are rationals, the external SDL stream/queue is represented by
the data (or byte count) currently queued, and size_t arithmetic of the
wasm32 target wraps modulo 2^32.  External SDL calls that only touch the
device (SDL_ResumeAudioDevice, SDL_PauseAudioDevice) are reflected by a
devicePaused flag; calls whose effect is invisible to the engine state
(printf, SDL_SetAudioStreamGain) are not modelled. -/

namespace FlacPlayer

/-- Width of size_t arithmetic in the source (wasm32 target: 32 bits). -/
def W : Nat := 2 ^ 32

/-- Wrapping subtraction of size_t values (modulo W), as performed by the
expressions `size - playHead` and `total - queued` in the source. -/
def usub (a b : Nat) : Nat := (a % W + (W - b % W)) % W

theorem usub_eq_sub {a b : Nat} (ha : a < W) (hb : b ≤ a) : usub a b = a - b := by
  have hbW : b < W := lt_of_le_of_lt hb ha
  unfold usub
  rw [Nat.mod_eq_of_lt ha, Nat.mod_eq_of_lt hbW]
  have h1 : a + (W - b) = W + (a - b) := by omega
  rw [h1, Nat.add_mod_left, Nat.mod_eq_of_lt (by omega)]

namespace Sdl3

/-- Global engine state of the SDL3 variant (struct PlayerState in
src/sdl/audio_engine.cpp).  `stream = some q` models a live
SDL_AudioStream whose still-queued samples are `q`; `none` models the
null stream pointer.  `devicePaused` mirrors the paused state of the
audio device set through SDL_PauseAudioDevice / SDL_ResumeAudioDevice. -/
structure PlayerState where
  stream : Option (List ℚ)
  audioBuffer : List ℚ
  isPlaying : Bool
  volume : ℚ
  sampleRate : Int
  channels : Int
  playHead : Nat
  devicePaused : Bool
deriving DecidableEq

/-- set_audio_data (SDL3 variant): destroys any previous stream first,
then copies the incoming samples (`allocOk = false` models the copy
throwing, in which case the function returns with the previous stream
already destroyed; C++ gives only the basic guarantee for the vector, it
is modelled as keeping its previous contents, and no theorem relies on
the buffer contents after a failed copy), then updates the format
fields, resets playHead and isPlaying, and creates a fresh stream
(`createOk = false` models SDL_CreateAudioStream failing, which is only
logged). -/
def set_audio_data (s : PlayerState) (data : List ℚ) (channels sampleRate : Int)
    (allocOk createOk : Bool) : PlayerState :=
  let s1 : PlayerState := { s with stream := none }
  if allocOk = false then s1
  else
    let s2 : PlayerState :=
      { s1 with audioBuffer := data, channels := channels, sampleRate := sampleRate,
                playHead := 0, isPlaying := false }
    if createOk = true then { s2 with stream := some [] } else s2

/-- play (SDL3 variant): no-op with a null stream, an empty buffer, or
when already playing; otherwise sets isPlaying, resumes the device, and,
if the stream holds zero queued bytes while playHead < length, pushes
the whole remaining segment from playHead. -/
def play (s : PlayerState) : PlayerState :=
  match s.stream with
  | none => s
  | some q =>
    if s.audioBuffer.isEmpty = true then s
    else if s.isPlaying = true then s
    else
      let s1 : PlayerState := { s with isPlaying := true, devicePaused := false }
      if 4 * q.length = 0 ∧ s.playHead < s.audioBuffer.length then
        { s1 with stream := some (q ++ s.audioBuffer.drop s.playHead) }
      else s1

/-- pause_audio (SDL3 variant): no-op when not playing; otherwise clears
isPlaying and pauses the device. -/
def pause_audio (s : PlayerState) : PlayerState :=
  if s.isPlaying = false then s
  else { s with isPlaying := false, devicePaused := true }

/-- resume_audio (SDL3 variant): no-op when playing; otherwise sets
isPlaying and resumes the device.  Unlike play it never enqueues data
and does not check the stream or the buffer. -/
def resume_audio (s : PlayerState) : PlayerState :=
  if s.isPlaying = true then s
  else { s with isPlaying := true, devicePaused := false }

/-- stop (SDL3 variant): no-op with a null stream; otherwise clears the
stream, clears isPlaying and resets playHead. -/
def stop (s : PlayerState) : PlayerState :=
  match s.stream with
  | none => s
  | some _ => { s with stream := some [], isPlaying := false, playHead := 0 }

/-- seek (SDL3 variant): no-op with a null stream or an empty buffer;
otherwise computes the target sample index
`(size_t)(time * sampleRate) * channels` in 32-bit size_t arithmetic:
the float-to-size_t cast truncates (modelled for the defined
non-negative, in-range case by `Int.toNat ∘ Int.floor`), and the
multiplication by channels wraps modulo 2^32.  The index is then aligned
down to a frame boundary and clamped to the buffer length; the stream is
cleared, and, if playing, the remaining segment is pushed immediately. -/
def seek (s : PlayerState) (t : ℚ) : PlayerState :=
  match s.stream with
  | none => s
  | some _ =>
    if s.audioBuffer.isEmpty = true then s
    else
      let len := s.audioBuffer.length
      let i0 : Nat := (⌊t * (s.sampleRate : ℚ)⌋.toNat * s.channels.toNat) % W
      let i1 : Nat := i0 - i0 % s.channels.toNat
      let i2 : Nat := if i1 ≥ len then len else i1
      let s1 : PlayerState := { s with playHead := i2, stream := some [] }
      if s1.isPlaying = true then
        if len - s1.playHead > 0 then
          { s1 with stream := some (s1.audioBuffer.drop s1.playHead) }
        else s1
      else s1

/-- get_current_time (SDL3 variant): 0 with a null stream or an empty
buffer; otherwise reconciles the position from the bytes still queued in
the stream: played = (length - playHead) - queued, index = playHead +
played (size_t arithmetic), clamped to the buffer length, then converted
to seconds. -/
def get_current_time (s : PlayerState) : ℚ :=
  match s.stream with
  | none => 0
  | some q =>
    if s.audioBuffer.isEmpty = true then 0
    else
      let queuedBytes : Nat := 4 * q.length
      let samplesQueued : Nat := queuedBytes / 4
      let totalSamplesToPlay : Nat := usub s.audioBuffer.length s.playHead
      let samplesPlayedSinceSeek : Nat := usub totalSamplesToPlay samplesQueued
      let currentSampleIndex0 : Nat := (s.playHead + samplesPlayedSinceSeek) % W
      let currentSampleIndex : Nat :=
        if currentSampleIndex0 > s.audioBuffer.length then s.audioBuffer.length
        else currentSampleIndex0
      let frames : Nat := currentSampleIndex / s.channels.toNat
      (frames : ℚ) / (s.sampleRate : ℚ)

/-- set_volume (SDL3 variant): always stores the volume; the
SDL_SetAudioStreamGain call made when a stream exists is external and
leaves the modelled state untouched. -/
def set_volume (s : PlayerState) (vol : ℚ) : PlayerState :=
  { s with volume := vol }

/-- Total duration of the loaded buffer in seconds,
length / (channels * sampleRate), as in the specification. -/
def totalDuration (s : PlayerState) : ℚ :=
  (s.audioBuffer.length : ℚ) / ((s.channels : ℚ) * (s.sampleRate : ℚ))

/-- The target index computed by seek: the 32-bit size_t product,
aligned down to a frame boundary and clamped to the buffer length. -/
def seekIndex (s : PlayerState) (t : ℚ) : Nat :=
  let i0 : Nat := (⌊t * (s.sampleRate : ℚ)⌋.toNat * s.channels.toNat) % W
  min (i0 - i0 % s.channels.toNat) s.audioBuffer.length

end Sdl3

namespace Sdl2

/-- Global engine state of the SDL2 variant (struct PlayerState in
src/sdl/audio_engine_sdl2.cpp).  `queuedBytes` is the device-format byte
count reported by SDL_GetQueuedAudioSize. -/
structure PlayerState where
  deviceBound : Bool
  streamBound : Bool
  audioBuffer : List ℚ
  isPlaying : Bool
  volume : ℚ
  sampleRate : Int
  channels : Int
  playHead : Nat
  deviceFreq : Int
  deviceChannels : Int
  devicePaused : Bool
  queuedBytes : Nat
deriving DecidableEq

/-- play (SDL2 variant): no-op with no device or an empty buffer or when
already playing; otherwise sets isPlaying, unpauses the device, and, if
the device queue is empty while playHead < length, pushes the remaining
segment through the converting SDL_AudioStream and queues the converted
bytes.  The external converter is an oracle `conv` from pushed source
bytes to available converted device bytes, and SDL_AudioStreamGet is
modelled as returning all available bytes. -/
def play (conv : Nat → Nat) (s : PlayerState) : PlayerState :=
  if s.deviceBound = false ∨ s.audioBuffer.isEmpty = true then s
  else if s.isPlaying = true then s
  else
    let s1 : PlayerState := { s with isPlaying := true, devicePaused := false }
    if s1.queuedBytes = 0 ∧ s1.playHead < s1.audioBuffer.length then
      let putBytes : Nat := (s1.audioBuffer.length - s1.playHead) * 4
      let available : Nat := conv putBytes
      if available > 0 then { s1 with queuedBytes := s1.queuedBytes + available }
      else s1
    else s1

/-- pause_audio (SDL2 variant): no-op when not playing; otherwise clears
isPlaying and pauses the device. -/
def pause_audio (s : PlayerState) : PlayerState :=
  if s.isPlaying = false then s
  else { s with isPlaying := false, devicePaused := true }

/-- resume_audio (SDL2 variant): no-op when playing, otherwise delegates
to play. -/
def resume_audio (conv : Nat → Nat) (s : PlayerState) : PlayerState :=
  if s.isPlaying = true then s
  else play conv s

/-- get_current_time (SDL2 variant): 0 with no device or an empty
buffer; otherwise totalDuration - queuedSeconds, where queuedSeconds
converts the device-format queued bytes to seconds, clamped to
[0, totalDuration]. -/
def get_current_time (s : PlayerState) : ℚ :=
  if s.deviceBound = false ∨ s.audioBuffer.isEmpty = true then 0
  else
    let queuedSeconds : ℚ :=
      (s.queuedBytes : ℚ) / (4 * (s.deviceChannels : ℚ) * (s.deviceFreq : ℚ))
    let totalDur : ℚ :=
      (s.audioBuffer.length : ℚ) / ((s.channels : ℚ) * (s.sampleRate : ℚ))
    let currentTime : ℚ := totalDur - queuedSeconds
    let clamped0 : ℚ := if currentTime < 0 then 0 else currentTime
    if clamped0 > totalDur then totalDur else clamped0

/-- set_volume (SDL2 variant): stores the volume; applying it is a TODO
in the source. -/
def set_volume (s : PlayerState) (vol : ℚ) : PlayerState :=
  { s with volume := vol }

/-- Total duration of the loaded buffer in seconds, as computed by
get_current_time in the SDL2 variant. -/
def totalDuration (s : PlayerState) : ℚ :=
  (s.audioBuffer.length : ℚ) / ((s.channels : ℚ) * (s.sampleRate : ℚ))

end Sdl2

/-- An engine that has been initialised but has no buffer loaded. -/
def emptyEngine : Sdl3.PlayerState :=
  { stream := none, audioBuffer := [], isPlaying := false, volume := 1,
    sampleRate := 44100, channels := 2, playHead := 0, devicePaused := true }

/-- A loaded, paused SDL3 engine: 4 samples, stereo, 4 Hz, so the total
duration is 1/2 s and one frame lasts 1/4 s. -/
def loadedPaused : Sdl3.PlayerState :=
  { stream := some [], audioBuffer := [1, 1, 1, 1], isPlaying := false, volume := 1,
    sampleRate := 4, channels := 2, playHead := 0, devicePaused := true }

/-- The same loaded SDL3 engine while playing. -/
def loadedPlaying : Sdl3.PlayerState :=
  { loadedPaused with isPlaying := true, devicePaused := false }

/-- A loaded SDL2 engine: 4 samples, stereo, 4 Hz, device at 8 Hz stereo. -/
def sdl2Loaded : Sdl2.PlayerState :=
  { deviceBound := true, streamBound := true, audioBuffer := [1, 1, 1, 1],
    isPlaying := true, volume := 1, sampleRate := 4, channels := 2, playHead := 0,
    deviceFreq := 8, deviceChannels := 2, devicePaused := false, queuedBytes := 0 }

/-- play (SDL3 variant) is a no-op on a state that is already playing. -/
theorem play3_of_isPlaying (u : Sdl3.PlayerState) (hu : u.isPlaying = true) :
    Sdl3.play u = u := by
  cases hs : u.stream with
  | none => simp [Sdl3.play, hs]
  | some q => simp [Sdl3.play, hs, hu]

/-- play (SDL2 variant) is a no-op on a state that is already playing. -/
theorem play2_of_isPlaying (conv : Nat → Nat) (u : Sdl2.PlayerState)
    (hu : u.isPlaying = true) : Sdl2.play conv u = u := by
  by_cases hg : u.deviceBound = false ∨ u.audioBuffer.isEmpty = true
  · simp [Sdl2.play, hg, hu]
  · simp [Sdl2.play, hg, hu]

/-- A non-empty list has isEmpty = false. -/
theorem isEmpty_false_of_ne_nil {l : List ℚ} (h : l ≠ []) : l.isEmpty = false := by
  cases l with
  | nil => exact absurd rfl h
  | cons a l => rfl

/-- In the reachable regime (playHead within the buffer, queued samples
at most the remaining segment, buffer length below the size_t width) the
SDL3 time reconciliation computes exact arithmetic: the reported time is
(length - queued) / channels frames divided by the sample rate. -/
theorem get_current_time_eq (s : Sdl3.PlayerState) (q : List ℚ)
    (hs : s.stream = some q) (hne : s.audioBuffer ≠ [])
    (hph : s.playHead ≤ s.audioBuffer.length)
    (hWl : s.audioBuffer.length < W)
    (hq : q.length ≤ s.audioBuffer.length - s.playHead) :
    Sdl3.get_current_time s =
      (((s.audioBuffer.length - q.length) / s.channels.toNat : Nat) : ℚ) /
        (s.sampleRate : ℚ) := by
  have hemp : s.audioBuffer.isEmpty = false := isEmpty_false_of_ne_nil hne
  have h4 : 4 * q.length / 4 = q.length := by omega
  have h1 : usub s.audioBuffer.length s.playHead = s.audioBuffer.length - s.playHead :=
    usub_eq_sub hWl hph
  have h2 : usub (s.audioBuffer.length - s.playHead) (q.length)
      = s.audioBuffer.length - s.playHead - q.length :=
    usub_eq_sub (by omega) hq
  have h3 : (s.playHead + (s.audioBuffer.length - s.playHead - q.length)) % W
      = s.audioBuffer.length - q.length := by
    have hlt : s.audioBuffer.length - q.length < W := by omega
    have heq : s.playHead + (s.audioBuffer.length - s.playHead - q.length)
        = s.audioBuffer.length - q.length := by omega
    rw [heq, Nat.mod_eq_of_lt hlt]
  have hnc : ¬ (s.audioBuffer.length - q.length > s.audioBuffer.length) := by omega
  simp only [Sdl3.get_current_time, hs, hemp, Bool.false_eq_true, if_false]
  rw [h4, h1, h2, h3, if_neg hnc]

/-- seek reduces, while playing, to setting playHead to the clamped
frame-aligned index and refilling the stream with the remaining segment. -/
theorem seek_eq_playing (s : Sdl3.PlayerState) (t : ℚ) (q : List ℚ)
    (hs : s.stream = some q) (hne : s.audioBuffer ≠ []) (hp : s.isPlaying = true) :
    Sdl3.seek s t = { s with playHead := Sdl3.seekIndex s t, stream := some (s.audioBuffer.drop (Sdl3.seekIndex s t)) } := by
  have hemp : s.audioBuffer.isEmpty = false := isEmpty_false_of_ne_nil hne
  simp only [Sdl3.seek, hs, hemp, Bool.false_eq_true, if_false, hp, if_true, Sdl3.seekIndex]
  by_cases hlen : (⌊t * (s.sampleRate : ℚ)⌋.toNat * s.channels.toNat % W)
        - (⌊t * (s.sampleRate : ℚ)⌋.toNat * s.channels.toNat % W) % s.channels.toNat
      ≥ s.audioBuffer.length
  · rw [if_pos hlen, min_eq_right hlen]
    have hd : s.audioBuffer.drop s.audioBuffer.length = [] := List.drop_length _
    have hz : ¬ (s.audioBuffer.length - s.audioBuffer.length > 0) := by omega
    rw [if_neg hz, hd]
  · rw [if_neg hlen, min_eq_left (by omega)]
    have hz : s.audioBuffer.length
        - ((⌊t * (s.sampleRate : ℚ)⌋.toNat * s.channels.toNat % W)
            - (⌊t * (s.sampleRate : ℚ)⌋.toNat * s.channels.toNat % W) % s.channels.toNat)
        > 0 := by omega
    rw [if_pos hz]

/-- seek reduces, while paused, to setting playHead to the clamped
frame-aligned index and leaving the cleared stream empty. -/
theorem seek_eq_paused (s : Sdl3.PlayerState) (t : ℚ) (q : List ℚ)
    (hs : s.stream = some q) (hne : s.audioBuffer ≠ []) (hp : s.isPlaying = false) :
    Sdl3.seek s t = { s with playHead := Sdl3.seekIndex s t, stream := some [] } := by
  have hemp : s.audioBuffer.isEmpty = false := isEmpty_false_of_ne_nil hne
  simp only [Sdl3.seek, hs, hemp, Bool.false_eq_true, if_false, hp, Sdl3.seekIndex]
  by_cases hlen : (⌊t * (s.sampleRate : ℚ)⌋.toNat * s.channels.toNat % W)
        - (⌊t * (s.sampleRate : ℚ)⌋.toNat * s.channels.toNat % W) % s.channels.toNat
      ≥ s.audioBuffer.length
  · rw [if_pos hlen, min_eq_right hlen]
  · rw [if_neg hlen, min_eq_left (by omega)]

/-- When the unbounded index product stays below the size_t width, the
32-bit wrap is a no-op and the alignment step does nothing, so the
computed seek index is the clamped unbounded product. -/
theorem seekIndex_eq_of_lt (s : Sdl3.PlayerState) (t : ℚ)
    (hnof : ⌊t * (s.sampleRate : ℚ)⌋.toNat * s.channels.toNat < W) :
    Sdl3.seekIndex s t
      = min (⌊t * (s.sampleRate : ℚ)⌋.toNat * s.channels.toNat) s.audioBuffer.length := by
  simp only [Sdl3.seekIndex]
  rw [Nat.mod_eq_of_lt hnof, Nat.mul_mod_left, Nat.sub_zero]

/-- The channel count cast through toNat agrees with the direct cast
when it is positive. -/
theorem toNat_cast_eq {c : Int} (hc : 0 < c) : ((c.toNat : ℚ)) = (c : ℚ) := by
  exact_mod_cast Int.toNat_of_nonneg hc.le

/-- When the buffer holds a whole number of frames, the total duration
is the frame count divided by the sample rate. -/
theorem totalDuration_eq (s : Sdl3.PlayerState) (hch : 0 < s.channels)
    (halign : s.audioBuffer.length % s.channels.toNat = 0) :
    Sdl3.totalDuration s
      = ((s.audioBuffer.length / s.channels.toNat : Nat) : ℚ) / (s.sampleRate : ℚ) := by
  have hchN : 0 < s.channels.toNat := by omega
  have hl : s.audioBuffer.length / s.channels.toNat * s.channels.toNat
      = s.audioBuffer.length := Nat.div_mul_cancel (Nat.dvd_of_mod_eq_zero halign)
  have hchQ : ((s.channels.toNat : ℚ)) = (s.channels : ℚ) := toNat_cast_eq hch
  have hchQ0 : (s.channels : ℚ) ≠ 0 := by
    exact_mod_cast ne_of_gt hch
  unfold Sdl3.totalDuration
  conv_lhs => rw [← hl]
  push_cast
  rw [hchQ, mul_comm ((s.audioBuffer.length / s.channels.toNat : Nat) : ℚ) _,
    mul_div_mul_left _ _ hchQ0]

/-- C2: the claim that get_current_time() returns 0 immediately after a
successful load of a non-empty buffer is contradicted by the code: with
nothing queued yet, the reconciliation arithmetic reports the full total
duration.  Loading an 8-sample stereo buffer at 4 Hz (duration 1 s) and
reading the time before any play() returns 1, not 0, even though
playHead was reset to 0 and isPlaying is false. -/
theorem C2_load_reports_total_duration :
    Sdl3.get_current_time (Sdl3.set_audio_data emptyEngine [1, 1, 1, 1, 1, 1, 1, 1] 2 4 true true)
        = 1 ∧
    Sdl3.get_current_time (Sdl3.set_audio_data emptyEngine [1, 1, 1, 1, 1, 1, 1, 1] 2 4 true true)
        ≠ 0 ∧
    Sdl3.totalDuration (Sdl3.set_audio_data emptyEngine [1, 1, 1, 1, 1, 1, 1, 1] 2 4 true true)
        = 1 ∧
    (Sdl3.set_audio_data emptyEngine [1, 1, 1, 1, 1, 1, 1, 1] 2 4 true true).isPlaying = false ∧
    (Sdl3.set_audio_data emptyEngine [1, 1, 1, 1, 1, 1, 1, 1] 2 4 true true).playHead = 0 := by
  have hW : W = 4294967296 := by norm_num [W]
  have htn : (2 : Int).toNat = 2 := rfl
  have htime :
      Sdl3.get_current_time (Sdl3.set_audio_data emptyEngine [1, 1, 1, 1, 1, 1, 1, 1] 2 4 true true)
        = 1 := by
    norm_num [Sdl3.get_current_time, Sdl3.set_audio_data, emptyEngine, usub, hW, htn]
  refine ⟨htime, by rw [htime]; norm_num, ?_, rfl, rfl⟩
  norm_num [Sdl3.totalDuration, Sdl3.set_audio_data, emptyEngine]

/-- C1, counterexample: seeking while paused does not make
get_current_time() return the seek target.  On a loaded paused engine
(4 samples, stereo, 4 Hz, duration 1/2 s, one frame = 1/4 s), seek(0)
leaves the cleared pipeline unfilled and get_current_time() then returns
1/2, which is not within one frame of the target 0. -/
theorem C1_counterexample :
    loadedPaused.isPlaying = false ∧
    Sdl3.get_current_time (Sdl3.seek loadedPaused 0) = 1 / 2 ∧
    ¬ |Sdl3.get_current_time (Sdl3.seek loadedPaused 0) - 0| ≤ 1 / 4 := by
  have hW : W = 4294967296 := by norm_num [W]
  have htn : (2 : Int).toNat = 2 := rfl
  have hseek : Sdl3.seek loadedPaused 0 = { loadedPaused with playHead := 0, stream := some [] } := by
    norm_num [Sdl3.seek, loadedPaused, htn, hW]
  have htime : Sdl3.get_current_time (Sdl3.seek loadedPaused 0) = 1 / 2 := by
    rw [hseek]
    norm_num [Sdl3.get_current_time, loadedPaused, usub, hW, htn]
  refine ⟨rfl, htime, ?_⟩
  rw [htime, sub_zero, abs_of_nonneg (by norm_num : (0 : ℚ) ≤ 1 / 2)]
  norm_num

/-- C5, counterexample: set_audio_data with channelCount = 0 is not
rejected and mutates the state: the previously loaded buffer is
replaced, the previous stream is destroyed, and no error is surfaced
(the function returns void). -/
theorem C5_counterexample :
    Sdl3.set_audio_data loadedPaused [5, 5] 0 8 true false ≠ loadedPaused ∧
    (Sdl3.set_audio_data loadedPaused [5, 5] 0 8 true false).audioBuffer = [5, 5] ∧
    loadedPaused.audioBuffer = [1, 1, 1, 1] ∧
    (Sdl3.set_audio_data loadedPaused [5, 5] 0 8 true false).channels = 0 ∧
    (Sdl3.set_audio_data loadedPaused [5, 5] 0 8 true false).stream = none := by
  refine ⟨?_, rfl, rfl, rfl, rfl⟩
  intro h
  exact absurd (congrArg (fun st => st.audioBuffer.length) h) (by decide)

/-- C5, amended: set_audio_data performs no validation at all; for every
channel count and sample rate, including non-positive ones, it still
destroys the previous stream, replaces the buffer and the format fields,
resets playHead and isPlaying, and surfaces no error (it returns void);
the stream afterwards is a fresh empty one exactly when stream creation
succeeds. -/
theorem C5_load_no_validation (s : Sdl3.PlayerState) (data : List ℚ)
    (channels sampleRate : Int) (createOk : Bool) :
    (Sdl3.set_audio_data s data channels sampleRate true createOk).audioBuffer = data ∧
    (Sdl3.set_audio_data s data channels sampleRate true createOk).channels = channels ∧
    (Sdl3.set_audio_data s data channels sampleRate true createOk).sampleRate = sampleRate ∧
    (Sdl3.set_audio_data s data channels sampleRate true createOk).playHead = 0 ∧
    (Sdl3.set_audio_data s data channels sampleRate true createOk).isPlaying = false ∧
    (Sdl3.set_audio_data s data channels sampleRate true createOk).stream
        = (if createOk = true then some [] else none) := by
  cases createOk <;> simp [Sdl3.set_audio_data]

/-- C6, counterexample: when the sample copy fails during
set_audio_data, the previous pipeline binding is not left intact: the
stream was already destroyed before the copy was attempted, so the
engine is left with no stream and play() can no longer do anything. -/
theorem C6_counterexample :
    loadedPlaying.stream = some [] ∧
    (Sdl3.set_audio_data loadedPlaying [9, 9] 2 4 false true).stream = none ∧
    Sdl3.play (Sdl3.set_audio_data loadedPlaying [9, 9] 2 4 false true)
        = Sdl3.set_audio_data loadedPlaying [9, 9] 2 4 false true := by
  exact ⟨rfl, rfl, rfl⟩

/-- C6, amended: if the sample copy cannot be made, load aborts with the
scalar state fields (playHead, isPlaying, format, volume) unchanged, but
the previous pipeline binding has already been destroyed (the source
frees the stream before attempting the copy, per the unbind-then-replace
ordering of the concurrency model), so no pipeline is bound afterwards,
play() is a no-op, and playback of the old track cannot continue; the
buffer itself is left in a valid but unspecified state. -/
theorem C6_alloc_failure_destroys_binding (s : Sdl3.PlayerState) (data : List ℚ)
    (channels sampleRate : Int) (createOk : Bool) :
    (Sdl3.set_audio_data s data channels sampleRate false createOk).stream = none ∧
    (Sdl3.set_audio_data s data channels sampleRate false createOk).playHead = s.playHead ∧
    (Sdl3.set_audio_data s data channels sampleRate false createOk).isPlaying = s.isPlaying ∧
    (Sdl3.set_audio_data s data channels sampleRate false createOk).channels = s.channels ∧
    (Sdl3.set_audio_data s data channels sampleRate false createOk).sampleRate = s.sampleRate ∧
    (Sdl3.set_audio_data s data channels sampleRate false createOk).volume = s.volume ∧
    Sdl3.play (Sdl3.set_audio_data s data channels sampleRate false createOk)
        = Sdl3.set_audio_data s data channels sampleRate false createOk := by
  refine ⟨rfl, rfl, rfl, rfl, rfl, rfl, ?_⟩
  simp [Sdl3.set_audio_data, Sdl3.play]

/-- C7, counterexample: in the SDL3 variant, resume() is not equivalent
to play().  From a paused state with an empty pipeline and playHead <
length, play() enqueues the remaining segment while resume() leaves the
pipeline empty. -/
theorem C7_counterexample :
    loadedPaused.isPlaying = false ∧
    (Sdl3.play loadedPaused).stream = some [1, 1, 1, 1] ∧
    (Sdl3.resume_audio loadedPaused).stream = some [] ∧
    Sdl3.resume_audio loadedPaused ≠ Sdl3.play loadedPaused := by
  refine ⟨rfl, rfl, rfl, ?_⟩
  intro h
  exact absurd (congrArg (fun st => (st.stream.getD []).length) h) (by decide)

/-- C7, amended: resume() has exactly the same effect as play() in the
SDL2 variant, where it delegates to play(); in the SDL3 variant resume()
only sets isPlaying and resumes the device, never enqueuing data, so it
differs from play() whenever play() would refill an empty pipeline. -/
theorem C7_resume_eq_play_sdl2 (conv : Nat → Nat) (s : Sdl2.PlayerState) :
    Sdl2.resume_audio conv s = Sdl2.play conv s := by
  by_cases hp : s.isPlaying = true
  · unfold Sdl2.resume_audio
    rw [if_pos hp, play2_of_isPlaying conv s hp]
  · unfold Sdl2.resume_audio
    rw [if_neg hp]

/-- C8, counterexample: setVolume with no buffer loaded is not a no-op
on the engine state: it stores the new volume. -/
theorem C8_counterexample :
    emptyEngine.stream = none ∧ emptyEngine.audioBuffer = [] ∧
    (Sdl3.set_volume emptyEngine (1 / 2)).volume = 1 / 2 ∧
    emptyEngine.volume = 1 ∧
    Sdl3.set_volume emptyEngine (1 / 2) ≠ emptyEngine := by
  refine ⟨rfl, rfl, rfl, rfl, ?_⟩
  intro h
  have h2 : (1 / 2 : ℚ) = 1 := congrArg (fun st => st.volume) h
  exact absurd h2 (by norm_num)

/-- C8, amended: with no buffer loaded, play and seek are silent no-ops
that leave the state entirely unchanged, and setVolume silently reports
no error but does store the volume scalar, which is its only state
change (the volume persists across loads by design). -/
theorem C8_novolume_noop_guards (s : Sdl3.PlayerState) (v t : ℚ) :
    Sdl3.set_volume { s with stream := none } v = { s with stream := none, volume := v } ∧
    Sdl3.play { s with stream := none } = { s with stream := none } ∧
    Sdl3.seek { s with stream := none } t = { s with stream := none } ∧
    Sdl3.play { s with audioBuffer := [] } = { s with audioBuffer := [] } ∧
    Sdl3.seek { s with audioBuffer := [] } t = { s with audioBuffer := [] } := by
  refine ⟨rfl, rfl, rfl, ?_, ?_⟩
  · cases hs : s.stream with
    | none => simp [Sdl3.play]
    | some q => simp [Sdl3.play, hs]
  · cases hs : s.stream with
    | none => simp [Sdl3.seek]
    | some q => simp [Sdl3.seek, hs]

/-- C9: pause() and play() are idempotent in both variants, play() is a
no-op on an empty buffer, and pause() is a no-op when already paused. -/
theorem C9_play_pause_idempotent (s : Sdl3.PlayerState) (s2 : Sdl2.PlayerState)
    (conv : Nat → Nat) :
    Sdl3.pause_audio (Sdl3.pause_audio s) = Sdl3.pause_audio s ∧
    Sdl3.play (Sdl3.play s) = Sdl3.play s ∧
    Sdl3.play { s with audioBuffer := [] } = { s with audioBuffer := [] } ∧
    Sdl3.pause_audio { s with isPlaying := false } = { s with isPlaying := false } ∧
    Sdl2.pause_audio (Sdl2.pause_audio s2) = Sdl2.pause_audio s2 ∧
    Sdl2.play conv (Sdl2.play conv s2) = Sdl2.play conv s2 := by
  refine ⟨?_, ?_, ?_, ?_, ?_, ?_⟩
  · by_cases hp : s.isPlaying = false
    · simp [Sdl3.pause_audio, hp]
    · simp [Sdl3.pause_audio, hp]
  · cases hs : s.stream with
    | none =>
      have h : Sdl3.play s = s := by simp [Sdl3.play, hs]
      rw [h, h]
    | some q =>
      by_cases he : s.audioBuffer.isEmpty = true
      · have h : Sdl3.play s = s := by simp [Sdl3.play, hs, he]
        rw [h, h]
      · by_cases hp : s.isPlaying = true
        · have h : Sdl3.play s = s := play3_of_isPlaying s hp
          rw [h, h]
        · apply play3_of_isPlaying
          by_cases hc : q = [] ∧ s.playHead < s.audioBuffer.length
          · simp [Sdl3.play, hs, he, hp, hc]
          · simp [Sdl3.play, hs, he, hp, hc]
  · cases hs : s.stream with
    | none => simp [Sdl3.play]
    | some q => simp [Sdl3.play, hs]
  · simp [Sdl3.pause_audio]
  · by_cases hp : s2.isPlaying = false
    · simp [Sdl2.pause_audio, hp]
    · simp [Sdl2.pause_audio, hp]
  · by_cases hd : s2.deviceBound = false
    · have h : Sdl2.play conv s2 = s2 := by simp [Sdl2.play, hd]
      rw [h, h]
    · by_cases he2 : s2.audioBuffer.isEmpty = true
      · have h : Sdl2.play conv s2 = s2 := by simp [Sdl2.play, he2]
        rw [h, h]
      · by_cases hp : s2.isPlaying = true
        · have h : Sdl2.play conv s2 = s2 := play2_of_isPlaying conv s2 hp
          rw [h, h]
        · apply play2_of_isPlaying
          by_cases hc : s2.queuedBytes = 0 ∧ s2.playHead < s2.audioBuffer.length
          · by_cases ha : conv ((s2.audioBuffer.length - s2.playHead) * 4) > 0
            · simp [Sdl2.play, hd, he2, hp, hc, ha]
            · simp [Sdl2.play, hd, he2, hp, hc, ha]
          · simp [Sdl2.play, hd, he2, hp, hc]

/-- C4, counterexample: the index computation wraps in 32-bit size_t
arithmetic.  Seeking to t = 2^29 s in the loaded 4-sample stereo 4 Hz
buffer computes (size_t)(2^29 * 4) * 2 = 2^32, which wraps to 0, so
playHead becomes 0 even though t lies far beyond the total duration,
where the claim demands playHead = length = 4 (and the claimed formula
floor(t * sampleRate) * channelCount clamped to length also gives 4). -/
theorem C4_counterexample :
    (Sdl3.seek loadedPaused 536870912).playHead = 0 ∧
    loadedPaused.audioBuffer.length = 4 ∧
    Sdl3.totalDuration loadedPaused ≤ 536870912 ∧
    (Sdl3.seek loadedPaused 536870912).playHead ≠ loadedPaused.audioBuffer.length := by
  have hW : W = 4294967296 := by norm_num [W]
  have htn : (2 : Int).toNat = 2 := rfl
  have htn2 : (2147483648 : Int).toNat = 2147483648 := rfl
  have hseek : Sdl3.seek loadedPaused 536870912
      = { loadedPaused with playHead := 0, stream := some [] } := by
    norm_num [Sdl3.seek, loadedPaused, htn, htn2, hW]
  refine ⟨by rw [hseek], rfl, ?_, by rw [hseek]; decide⟩
  norm_num [Sdl3.totalDuration, loadedPaused]

/-- C4, amended: seek computes the target index in 32-bit size_t
arithmetic.  Provided the computed index floor(t * sampleRate) *
channelCount stays below 2^32 (no size_t overflow), the resulting
playHead equals min(floor(t * sampleRate) * channelCount, length), is
frame-aligned and within [0, length], and times at or beyond the total
duration yield playHead = length. -/
theorem C4_seek_index_clamped_aligned (s : Sdl3.PlayerState) (t : ℚ) (q : List ℚ)
    (hs : s.stream = some q) (hne : s.audioBuffer ≠ [])
    (hch : 0 < s.channels) (hr : 0 < s.sampleRate)
    (halign : s.audioBuffer.length % s.channels.toNat = 0)
    (ht0 : 0 ≤ t)
    (hnof : ⌊t * (s.sampleRate : ℚ)⌋.toNat * s.channels.toNat < W) :
    (Sdl3.seek s t).playHead
        = min (⌊t * (s.sampleRate : ℚ)⌋.toNat * s.channels.toNat) s.audioBuffer.length ∧
    (Sdl3.seek s t).playHead % s.channels.toNat = 0 ∧
    (Sdl3.seek s t).playHead ≤ s.audioBuffer.length ∧
    (Sdl3.totalDuration s ≤ t → (Sdl3.seek s t).playHead = s.audioBuffer.length) := by
  have hph : (Sdl3.seek s t).playHead = Sdl3.seekIndex s t := by
    cases hpb : s.isPlaying with
    | false => rw [seek_eq_paused s t q hs hne hpb]
    | true => rw [seek_eq_playing s t q hs hne hpb]
  have hmin : Sdl3.seekIndex s t
      = min (⌊t * (s.sampleRate : ℚ)⌋.toNat * s.channels.toNat) s.audioBuffer.length :=
    seekIndex_eq_of_lt s t hnof
  rw [hph, hmin]
  refine ⟨rfl, ?_, min_le_right _ _, ?_⟩
  · rcases le_total (⌊t * (s.sampleRate : ℚ)⌋.toNat * s.channels.toNat)
        s.audioBuffer.length with h | h
    · rw [min_eq_left h, Nat.mul_mod_left]
    · rw [min_eq_right h]; exact halign
  · intro hdur
    have hrQ : (0 : ℚ) < (s.sampleRate : ℚ) := by exact_mod_cast hr
    have hkQ : ((s.audioBuffer.length / s.channels.toNat : Nat) : ℚ)
        ≤ t * (s.sampleRate : ℚ) := by
      have h1 : ((s.audioBuffer.length / s.channels.toNat : Nat) : ℚ) / (s.sampleRate : ℚ)
          ≤ t := le_trans (le_of_eq (totalDuration_eq s hch halign).symm) hdur
      exact (div_le_iff₀ hrQ).mp h1
    have hkZ : ((s.audioBuffer.length / s.channels.toNat : Nat) : ℤ)
        ≤ ⌊t * (s.sampleRate : ℚ)⌋ := by
      rw [Int.le_floor]
      exact_mod_cast hkQ
    have hkm : s.audioBuffer.length / s.channels.toNat
        ≤ ⌊t * (s.sampleRate : ℚ)⌋.toNat := by omega
    have hl : s.audioBuffer.length / s.channels.toNat * s.channels.toNat
        = s.audioBuffer.length := Nat.div_mul_cancel (Nat.dvd_of_mod_eq_zero halign)
    have hlen : s.audioBuffer.length ≤ ⌊t * (s.sampleRate : ℚ)⌋.toNat * s.channels.toNat := by
      calc s.audioBuffer.length
          = s.audioBuffer.length / s.channels.toNat * s.channels.toNat := hl.symm
        _ ≤ ⌊t * (s.sampleRate : ℚ)⌋.toNat * s.channels.toNat :=
            Nat.mul_le_mul_right _ hkm
    rw [min_eq_right hlen]

/-- C4 at a concrete input: seeking to 3/4 s in the loaded 4-sample
stereo 4 Hz buffer yields a frame-aligned playHead within bounds. -/
theorem C4_witness :
    (Sdl3.seek loadedPaused (3 / 4)).playHead % loadedPaused.channels.toNat = 0 ∧
    (Sdl3.seek loadedPaused (3 / 4)).playHead ≤ loadedPaused.audioBuffer.length := by
  have h := C4_seek_index_clamped_aligned loadedPaused (3 / 4) [] rfl (by decide)
    (by decide) (by decide) (by decide) (by norm_num)
    (by norm_num [loadedPaused, W]; decide)
  exact ⟨h.2.1, h.2.2.1⟩

/-- C1, amended: when the engine is playing at the time of the seek and
the target lies within [0, totalDuration], get_current_time returns the
seek target within one frame's duration, immediately after seek returns
and before any pipeline drain. -/
theorem C1_seek_exact_when_playing (s : Sdl3.PlayerState) (t : ℚ) (q : List ℚ)
    (hs : s.stream = some q) (hp : s.isPlaying = true)
    (hne : s.audioBuffer ≠ []) (hch : 0 < s.channels) (hr : 0 < s.sampleRate)
    (halign : s.audioBuffer.length % s.channels.toNat = 0)
    (hWl : s.audioBuffer.length < W)
    (ht0 : 0 ≤ t) (ht1 : t ≤ Sdl3.totalDuration s) :
    |Sdl3.get_current_time (Sdl3.seek s t) - t| < 1 / (s.sampleRate : ℚ) := by
  have hrQ : (0 : ℚ) < (s.sampleRate : ℚ) := by exact_mod_cast hr
  have hchN : 0 < s.channels.toNat := by omega
  have hkQ : t * (s.sampleRate : ℚ)
      ≤ ((s.audioBuffer.length / s.channels.toNat : Nat) : ℚ) := by
    have h1 : t ≤ ((s.audioBuffer.length / s.channels.toNat : Nat) : ℚ) / (s.sampleRate : ℚ) :=
      le_trans ht1 (le_of_eq (totalDuration_eq s hch halign))
    exact (le_div_iff₀ hrQ).mp h1
  have hfl0 : (0 : ℤ) ≤ ⌊t * (s.sampleRate : ℚ)⌋ :=
    Int.floor_nonneg.mpr (mul_nonneg ht0 hrQ.le)
  have hflk : ⌊t * (s.sampleRate : ℚ)⌋
      ≤ ((s.audioBuffer.length / s.channels.toNat : Nat) : ℤ) := by
    have h3 := Int.floor_mono hkQ
    rwa [Int.floor_natCast] at h3
  have hkm : ⌊t * (s.sampleRate : ℚ)⌋.toNat ≤ s.audioBuffer.length / s.channels.toNat := by
    omega
  have hl : s.audioBuffer.length / s.channels.toNat * s.channels.toNat
      = s.audioBuffer.length := Nat.div_mul_cancel (Nat.dvd_of_mod_eq_zero halign)
  have hile : ⌊t * (s.sampleRate : ℚ)⌋.toNat * s.channels.toNat ≤ s.audioBuffer.length := by
    calc ⌊t * (s.sampleRate : ℚ)⌋.toNat * s.channels.toNat
        ≤ s.audioBuffer.length / s.channels.toNat * s.channels.toNat :=
          Nat.mul_le_mul_right _ hkm
      _ = s.audioBuffer.length := hl
  have hidx : Sdl3.seekIndex s t = ⌊t * (s.sampleRate : ℚ)⌋.toNat * s.channels.toNat := by
    rw [seekIndex_eq_of_lt s t (lt_of_le_of_lt hile hWl)]
    exact min_eq_left hile
  have hgt := get_current_time_eq { s with playHead := ⌊t * (s.sampleRate : ℚ)⌋.toNat * s.channels.toNat, stream := some (s.audioBuffer.drop (⌊t * (s.sampleRate : ℚ)⌋.toNat * s.channels.toNat)) } (s.audioBuffer.drop (⌊t * (s.sampleRate : ℚ)⌋.toNat * s.channels.toNat)) rfl hne hile hWl (le_of_eq (List.length_drop _ _))
  dsimp only at hgt
  rw [seek_eq_playing s t q hs hne hp, hidx, hgt]
  rw [List.length_drop, Nat.sub_sub_self hile, Nat.mul_div_cancel _ hchN]
  have hmQ : ((⌊t * (s.sampleRate : ℚ)⌋.toNat : Nat) : ℚ)
      = ((⌊t * (s.sampleRate : ℚ)⌋ : ℤ) : ℚ) := by
    exact_mod_cast Int.toNat_of_nonneg hfl0
  rw [hmQ]
  have hlow : t * (s.sampleRate : ℚ) - 1 < ((⌊t * (s.sampleRate : ℚ)⌋ : ℤ) : ℚ) :=
    Int.sub_one_lt_floor _
  have hhigh : ((⌊t * (s.sampleRate : ℚ)⌋ : ℤ) : ℚ) ≤ t * (s.sampleRate : ℚ) :=
    Int.floor_le _
  rw [abs_sub_lt_iff]
  constructor
  · have hmt : ((⌊t * (s.sampleRate : ℚ)⌋ : ℤ) : ℚ) / (s.sampleRate : ℚ) ≤ t :=
      (div_le_iff₀ hrQ).mpr (by linarith)
    have h1r : (0 : ℚ) < 1 / (s.sampleRate : ℚ) := by positivity
    linarith
  · have hmt : t < (((⌊t * (s.sampleRate : ℚ)⌋ : ℤ) : ℚ) + 1) / (s.sampleRate : ℚ) := by
      rw [lt_div_iff₀ hrQ]
      linarith
    rw [add_div] at hmt
    linarith

/-- C1, amended, at a concrete input: seeking to 1/4 s while playing in
the loaded 4-sample stereo 4 Hz buffer makes get_current_time report
1/4 within one frame. -/
theorem C1_witness :
    |Sdl3.get_current_time (Sdl3.seek loadedPlaying (1 / 4)) - 1 / 4|
      < 1 / ((loadedPlaying.sampleRate : ℚ)) :=
  C1_seek_exact_when_playing loadedPlaying (1 / 4) [] rfl rfl (by decide) (by decide)
    (by decide) (by decide) (by decide) (by norm_num)
    (by norm_num [Sdl3.totalDuration, loadedPlaying, loadedPaused])

/-- C3: while playing with fixed playHead and buffer, the reported time
is antitone in the reported pending amount in both variants (the SDL3
variant within the reachable regime where at most the pushed segment is
queued, the SDL2 variant unconditionally thanks to its explicit clamp),
and the result always lies in [0, totalDuration]. -/
theorem C3_time_antitone_in_pending_and_clamped
    (s : Sdl3.PlayerState) (q1 q2 : List ℚ)
    (hch : 0 < s.channels) (hr : 0 < s.sampleRate)
    (hne : s.audioBuffer ≠ []) (hph : s.playHead ≤ s.audioBuffer.length)
    (hWl : s.audioBuffer.length < W)
    (h12 : q1.length ≤ q2.length)
    (h2q : q2.length ≤ s.audioBuffer.length - s.playHead)
    (s2 : Sdl2.PlayerState) (b1 b2 : Nat)
    (hd : s2.deviceBound = true) (hne2 : s2.audioBuffer ≠ [])
    (hch2 : 0 < s2.channels) (hr2 : 0 < s2.sampleRate)
    (hdch : 0 < s2.deviceChannels) (hdfr : 0 < s2.deviceFreq)
    (hb : b1 ≤ b2) :
    (Sdl3.get_current_time { s with stream := some q2 }
        ≤ Sdl3.get_current_time { s with stream := some q1 } ∧
      0 ≤ Sdl3.get_current_time { s with stream := some q1 } ∧
      Sdl3.get_current_time { s with stream := some q1 } ≤ Sdl3.totalDuration s) ∧
    (Sdl2.get_current_time { s2 with queuedBytes := b2 }
        ≤ Sdl2.get_current_time { s2 with queuedBytes := b1 } ∧
      0 ≤ Sdl2.get_current_time { s2 with queuedBytes := b1 } ∧
      Sdl2.get_current_time { s2 with queuedBytes := b1 } ≤ Sdl2.totalDuration s2) := by
  have hrQ : (0 : ℚ) < (s.sampleRate : ℚ) := by exact_mod_cast hr
  have hchN : 0 < s.channels.toNat := by omega
  have hchNQ : (0 : ℚ) < (s.channels.toNat : ℚ) := by exact_mod_cast hchN
  have hg1 := get_current_time_eq { s with stream := some q1 } q1 rfl hne hph hWl
    (le_trans h12 h2q)
  have hg2 := get_current_time_eq { s with stream := some q2 } q2 rfl hne hph hWl h2q
  dsimp only at hg1 hg2
  constructor
  · refine ⟨?_, ?_, ?_⟩
    · rw [hg1, hg2]
      have hnat : (s.audioBuffer.length - q2.length) / s.channels.toNat
          ≤ (s.audioBuffer.length - q1.length) / s.channels.toNat :=
        Nat.div_le_div_right (Nat.sub_le_sub_left h12 _)
      exact (div_le_div_iff_of_pos_right hrQ).mpr (by exact_mod_cast hnat)
    · rw [hg1]
      exact div_nonneg (Nat.cast_nonneg _) hrQ.le
    · rw [hg1]
      have hml : (((s.audioBuffer.length - q1.length : Nat)) : ℚ)
          ≤ ((s.audioBuffer.length : ℚ)) := by
        exact_mod_cast Nat.sub_le _ _
      have hc1 : (((s.audioBuffer.length - q1.length) / s.channels.toNat : Nat) : ℚ)
          ≤ ((s.audioBuffer.length : ℚ)) / ((s.channels.toNat : ℚ)) :=
        le_trans Nat.cast_div_le ((div_le_div_iff_of_pos_right hchNQ).mpr hml)
      have hstep : (((s.audioBuffer.length - q1.length) / s.channels.toNat : Nat) : ℚ)
            / (s.sampleRate : ℚ)
          ≤ ((s.audioBuffer.length : ℚ)) / ((s.channels.toNat : ℚ)) / (s.sampleRate : ℚ) :=
        (div_le_div_iff_of_pos_right hrQ).mpr hc1
      have hdur : ((s.audioBuffer.length : ℚ)) / ((s.channels.toNat : ℚ)) / (s.sampleRate : ℚ)
          = Sdl3.totalDuration s := by
        unfold Sdl3.totalDuration
        rw [div_div, toNat_cast_eq hch]
      rw [← hdur]
      exact hstep
  · have hcden : (0 : ℚ) < 4 * (s2.deviceChannels : ℚ) * (s2.deviceFreq : ℚ) := by
      have h1 : (0 : ℚ) < (s2.deviceChannels : ℚ) := by exact_mod_cast hdch
      have h2 : (0 : ℚ) < (s2.deviceFreq : ℚ) := by exact_mod_cast hdfr
      positivity
    have hdQ : (0 : ℚ) ≤ Sdl2.totalDuration s2 := by
      unfold Sdl2.totalDuration
      have h1 : (0 : ℚ) < (s2.channels : ℚ) := by exact_mod_cast hch2
      have h2 : (0 : ℚ) < (s2.sampleRate : ℚ) := by exact_mod_cast hr2
      positivity
    have hqs : ((b1 : ℚ)) / (4 * (s2.deviceChannels : ℚ) * (s2.deviceFreq : ℚ))
        ≤ ((b2 : ℚ)) / (4 * (s2.deviceChannels : ℚ) * (s2.deviceFreq : ℚ)) :=
      (div_le_div_iff_of_pos_right hcden).mpr (by exact_mod_cast hb)
    have hq0 : (0 : ℚ) ≤ ((b1 : ℚ)) / (4 * (s2.deviceChannels : ℚ) * (s2.deviceFreq : ℚ)) :=
      div_nonneg (Nat.cast_nonneg _) hcden.le
    have hemp2 : s2.audioBuffer.isEmpty = false := isEmpty_false_of_ne_nil hne2
    unfold Sdl2.totalDuration at hdQ ⊢
    refine ⟨?_, ?_, ?_⟩ <;>
      simp only [Sdl2.get_current_time, hd, hemp2, Bool.true_eq_false, Bool.false_eq_true,
        or_self, if_false] <;>
      split_ifs <;> linarith

/-- C3 at a concrete input: with more data pending the reported time is
smaller, in both variants. -/
theorem C3_witness :
    Sdl3.get_current_time { loadedPaused with stream := some [1, 1] }
        ≤ Sdl3.get_current_time { loadedPaused with stream := some [1] } ∧
    Sdl2.get_current_time { sdl2Loaded with queuedBytes := 16 }
        ≤ Sdl2.get_current_time { sdl2Loaded with queuedBytes := 8 } := by
  have h := C3_time_antitone_in_pending_and_clamped loadedPaused [1] [1, 1]
    (by decide) (by decide) (by decide) (by decide) (by decide) (by decide) (by decide)
    sdl2Loaded 8 16 rfl (by decide) (by decide) (by decide) (by decide) (by decide)
    (by decide)
  exact ⟨h.1.1, h.2.1⟩

/-- C10: get_current_time returns exactly 0 when no stream (SDL3) or no
device (SDL2) is bound, and when the audio buffer is empty; it is a pure
function of the state and modifies nothing. -/
theorem C10_time_zero_when_unbound_or_empty (s : Sdl3.PlayerState)
    (s2 : Sdl2.PlayerState) :
    Sdl3.get_current_time { s with stream := none } = 0 ∧
    Sdl3.get_current_time { s with audioBuffer := [] } = 0 ∧
    Sdl2.get_current_time { s2 with deviceBound := false } = 0 ∧
    Sdl2.get_current_time { s2 with audioBuffer := [] } = 0 := by
  refine ⟨rfl, ?_, ?_, ?_⟩
  · cases hs : s.stream with
    | none => simp [Sdl3.get_current_time]
    | some q => simp [Sdl3.get_current_time, hs]
  · simp [Sdl2.get_current_time]
  · simp [Sdl2.get_current_time]

end FlacPlayer
